import Mathlib

/-!
Shallow embedding of the RoluATM T-Flex coin-dispenser protocol layer:
the driver (`src/backend/driver_tflex.py`, class `TFlex`) and the device
simulator (`tests/mock_tflex.py`, classes `MockTFlexState`,
`MockTFlexProtocol`, `MockTFlexServer`).

Bytes are modelled as `Nat` (the code only ever produces values in 0..255,
masking with `&&& 0xFF` where Python does), Python `int` fields as `Int`,
Python exceptions as an `Except` error channel, and the asyncio background
tasks of the simulator as an explicit list of scheduled tasks.  Wall-clock
times (`time.sleep`, `asyncio.sleep`, the `last_update` timestamp) are not
modelled; nothing below depends on them.
-/

namespace RoluATM

/-! ### Protocol constants (driver_tflex.py lines 52-64, mock_tflex.py lines 43-55) -/

def CMD_STATUS : Nat := 0x01
def CMD_DISPENSE : Nat := 0x02
def CMD_RESET : Nat := 0x03
def CMD_CALIBRATE : Nat := 0x04

def RESP_OK : Nat := 0x00
def RESP_ERROR : Nat := 0x01
def RESP_BUSY : Nat := 0x02
def RESP_LOW_COIN : Nat := 0x03
def RESP_LID_OPEN : Nat := 0x04
def RESP_FAULT : Nat := 0x05

/-! ### CRC-8 (identical `_calculate_crc` in driver_tflex.py lines 127-138 and
mock_tflex.py lines 74-85): `crc ^= byte`, then eight rounds of
`crc = ((crc << 1) ^ 0x07) & 0xFF` when the top bit is set, else
`crc = (crc << 1) & 0xFF`. -/

def crcShift (crc : Nat) : Nat :=
  if crc &&& 0x80 ≠ 0 then ((crc <<< 1) ^^^ 0x07) &&& 0xFF
  else (crc <<< 1) &&& 0xFF

def crcByte (crc b : Nat) : Nat :=
  crcShift^[8] (crc ^^^ b)

def calculateCrc (data : List Nat) : Nat :=
  data.foldl crcByte 0

/-! ### Request encoding: the packet-building part of `TFlex._send_command`
(driver_tflex.py lines 162-171).  Note the CRC is computed over
`packet[1:-1]` at a point where the packet is still `[STX, LEN, CMD, DATA...]`
(CRC and ETX not yet appended), so the slice drops the final body byte. -/

def encodeRequest (command : Nat) (data : List Nat) : List Nat :=
  let packet := [0x02, data.length + 1, command] ++ data
  let crc := calculateCrc
    (if 1 < packet.length then (packet.drop 1).dropLast else packet.drop 1)
  packet ++ [crc, 0x03]

/-! ### Response encoding: `MockTFlexProtocol._send_response` packet build
(mock_tflex.py lines 260-268); CRC over `packet[1:]` = LEN plus full body. -/

def encodeResponse (response_data : List Nat) : List Nat :=
  let packet := [0x02, response_data.length] ++ response_data
  packet ++ [calculateCrc (packet.drop 1), 0x03]

/-! ### Simulator device state (`MockTFlexState`, mock_tflex.py lines 22-38) -/

structure MockTFlexState where
  coins_available : Int := 1000
  low_coin_threshold : Int := 50
  lid_open : Bool := false
  fault : Bool := false
  busy : Bool := false
  total_dispensed : Int := 0
  jam_simulation : Bool := false
deriving Repr, DecidableEq

/-- The `low_coin` property (mock_tflex.py lines 33-35). -/
def MockTFlexState.low_coin (s : MockTFlexState) : Bool :=
  s.coins_available ≤ s.low_coin_threshold

/-- A background task scheduled with `asyncio.create_task` by a command
handler: either `_simulate_dispense(coins)` or `_simulate_calibration()`. -/
inductive SimTask where
  | dispense (coins : Int)
  | calibrate
deriving Repr, DecidableEq

/-! ### Simulator command handlers (mock_tflex.py lines 159-253).
Each returns the successor device state, the response body bytes, and the
background tasks it scheduled. -/

/-- `_handle_status` (mock_tflex.py lines 159-177). -/
def handleStatus (s : MockTFlexState) : List Nat :=
  let f0 : Nat := if s.low_coin then 0 ||| 0x01 else 0
  let f1 : Nat := if s.lid_open then f0 ||| 0x02 else f0
  let f2 : Nat := if s.fault then f1 ||| 0x04 else f1
  let f3 : Nat := if s.busy then f2 ||| 0x08 else f2
  [RESP_OK, f3, ((s.coins_available.fdiv 256).emod 256).toNat,
    (s.coins_available.emod 256).toNat]

/-- `_handle_dispense` (mock_tflex.py lines 179-211): synchronous part only;
an accepted dispense schedules `_simulate_dispense` as a task. -/
def handleDispense (s : MockTFlexState) (data : List Nat) :
    MockTFlexState × List Nat × List SimTask :=
  if data.length < 2 then (s, [RESP_ERROR], [])
  else
    let coins_requested : Int := (((data.getD 0 0) <<< 8) ||| data.getD 1 0 : Nat)
    if s.fault then (s, [RESP_FAULT], [])
    else if s.lid_open then (s, [RESP_LID_OPEN], [])
    else if s.busy then (s, [RESP_BUSY], [])
    else if s.coins_available < coins_requested then (s, [RESP_LOW_COIN], [])
    else if s.jam_simulation = true ∧ 10 < coins_requested then
      ({ s with fault := true }, [RESP_FAULT], [])
    else (s, [RESP_OK], [SimTask.dispense coins_requested])

/-- First statement of `_simulate_dispense` (mock_tflex.py line 215):
the task sets `busy` when it starts running. -/
def simulateDispenseBegin (s : MockTFlexState) : MockTFlexState :=
  { s with busy := true }

/-- Completion part of `_simulate_dispense` (mock_tflex.py lines 221-224),
after the sleep: deduct coins, bump the running total, clear `busy`. -/
def simulateDispenseEnd (s : MockTFlexState) (coins : Int) : MockTFlexState :=
  { s with coins_available := s.coins_available - coins,
           total_dispensed := s.total_dispensed + coins,
           busy := false }

/-- The whole `_simulate_dispense` task, start to completion
(the `asyncio.sleep` between the two phases is not modelled). -/
def simulateDispense (s : MockTFlexState) (coins : Int) : MockTFlexState :=
  simulateDispenseEnd (simulateDispenseBegin s) coins

/-- `_handle_reset` (mock_tflex.py lines 228-237). -/
def handleReset (s : MockTFlexState) : MockTFlexState × List Nat :=
  ({ s with fault := false, busy := false, lid_open := false,
            jam_simulation := false }, [RESP_OK])

/-- `_handle_calibrate` (mock_tflex.py lines 239-246). -/
def handleCalibrate (s : MockTFlexState) :
    MockTFlexState × List Nat × List SimTask :=
  (s, [RESP_OK], [SimTask.calibrate])

/-- `_process_command` (mock_tflex.py lines 141-157). -/
def processCommand (s : MockTFlexState) (command : Nat) (data : List Nat) :
    MockTFlexState × List Nat × List SimTask :=
  if command = CMD_STATUS then (s, handleStatus s, [])
  else if command = CMD_DISPENSE then handleDispense s data
  else if command = CMD_RESET then ((handleReset s).1, (handleReset s).2, [])
  else if command = CMD_CALIBRATE then handleCalibrate s
  else (s, [RESP_ERROR], [])

/-! ### Per-connection protocol object (`MockTFlexProtocol`) and the TCP
server's client loop (`MockTFlexServer._handle_client`).

`DevCtx` bundles the fields of one `MockTFlexProtocol` instance other than
its byte buffer (which the buffer-processing loop threads explicitly so
that its recursion is on the buffer alone): the transport (set only by
`connection_made`, mock_tflex.py lines 62-65), the shared device state, the
frames written to the transport so far, the scheduled background tasks, and
the `_pending_response` attribute probed by `_handle_client` with `hasattr`
(mock_tflex.py line 318) — no method of the class ever sets that attribute,
which the embedding renders by no function ever assigning the field. -/

structure DevCtx where
  transport : Option Unit := none
  state : MockTFlexState := {}
  sent : List (List Nat) := []
  tasks : List SimTask := []
  pending_response : Option (List Nat) := none
deriving Repr, DecidableEq

/-- `_send_response` (mock_tflex.py lines 255-271): returns without writing
when `self.transport` is still `None`; otherwise frames the body and writes
it to the transport. -/
def sendResponse (c : DevCtx) (response_data : List Nat) : DevCtx :=
  match c.transport with
  | none => c
  | some _ => { c with sent := c.sent ++ [encodeResponse response_data] }

/-- `_handle_packet` (mock_tflex.py lines 110-139): length, framing and CRC
checks (CRC over `packet[1:-2]` = LEN plus full body), then command
dispatch and response emission.  A packet failing any check is dropped
with a logged warning and no response. -/
def handlePacket (c : DevCtx) (packet : List Nat) : DevCtx :=
  if packet.length < 5 then c
  else if ¬(packet.headI = 0x02 ∧ packet.getLast? = some 0x03) then c
  else
    let data_bytes := ((packet.drop 1).dropLast).dropLast
    let received_crc := (packet.dropLast).getLastD 0
    if received_crc ≠ calculateCrc data_bytes then c
    else
      let length := packet.getD 1 0
      if 0 < length then
        let command := packet.getD 2 0
        let cmd_data := if 1 < length then (packet.drop 3).take (length - 1) else []
        let r := processCommand c.state command cmd_data
        sendResponse { c with state := r.1, tasks := c.tasks ++ r.2.2 } r.2.1
      else c

/-- `_process_buffer` (mock_tflex.py lines 87-108): while at least 5 bytes
are buffered, resynchronise on the STX sentinel, wait for `LEN + 4` bytes,
then split off one packet and handle it.  Returns the updated context and
the remaining (incomplete) buffer. -/
def processBuffer (c : DevCtx) (buffer : List Nat) : DevCtx × List Nat :=
  if h5 : 5 ≤ buffer.length then
    if buffer.headI ≠ 0x02 then processBuffer c buffer.tail
    else if buffer.length < 2 then (c, buffer)
    else
      let packet_length := buffer[1]?.getD 0 + 4
      if buffer.length < packet_length then (c, buffer)
      else processBuffer (handlePacket c (buffer.take packet_length))
        (buffer.drop packet_length)
  else (c, buffer)
termination_by buffer.length
decreasing_by
  · simp [List.length_tail]; omega
  · simp [List.length_drop]; omega

/-- `data_received` (mock_tflex.py lines 67-69): append the chunk to the
buffer and process. -/
def dataReceived (c : DevCtx) (buffer : List Nat) (data : List Nat) :
    DevCtx × List Nat :=
  processBuffer c (buffer ++ data)

/-- The read loop of `MockTFlexServer._handle_client` (mock_tflex.py lines
301-321): feed each received chunk to `protocol.data_received`, then write
`protocol._pending_response` to the client socket if that attribute exists
(it never does).  Accumulates the bytes written back to the client in the
third component. -/
def handleClientLoop (c : DevCtx) (buffer : List Nat)
    (clientWrites : List (List Nat)) :
    List (List Nat) → DevCtx × List Nat × List (List Nat)
  | [] => (c, buffer, clientWrites)
  | chunk :: rest =>
    let r := dataReceived c buffer chunk
    match r.1.pending_response with
    | some resp =>
      handleClientLoop { r.1 with pending_response := none } r.2
        (clientWrites ++ [resp]) rest
    | none => handleClientLoop r.1 r.2 clientWrites rest

/-- One whole client session as served by `MockTFlexServer._handle_client`
(mock_tflex.py lines 301-321): a fresh `MockTFlexProtocol(self.state)` is
constructed — `connection_made` is never invoked on it, so `transport`
starts (and stays) `None` — and the chunks read from the socket are fed
through the loop. -/
def handleClient (st : MockTFlexState) (chunks : List (List Nat)) :
    DevCtx × List Nat × List (List Nat) :=
  handleClientLoop { transport := none, state := st, sent := [], tasks := [],
                     pending_response := none } [] [] chunks

/-! ### Driver (`TFlex`, driver_tflex.py).

Python exceptions become an `Except DriverError` channel.  The exception
classes of the source are `TFlexError` and its subclasses
`TFlexTimeoutError` and `TFlexHardwareError`, plus the builtin `ValueError`
raised by input validation; instances are distinguished by their message. -/

inductive DriverError where
  | timeoutErr (msg : String)
  | hardware (msg : String)
  | generic (msg : String)
  | valueError (msg : String)
deriving Repr, DecidableEq

/-- Whether the exception is a `TFlexError` (or subclass) in the source's
class hierarchy (driver_tflex.py lines 32-42); `ValueError` is not. -/
def DriverError.isTFlexError : DriverError → Bool
  | .timeoutErr _ => true
  | .hardware _ => true
  | .generic _ => true
  | .valueError _ => false

/-- Driver status snapshot (`TFlexStatus`, driver_tflex.py lines 23-30).
The `last_update: float` wall-clock timestamp is not modelled. -/
structure TFlexStatus where
  low_coin : Bool := false
  lid_open : Bool := false
  fault : Bool := false
  coins_available : Int := 0
deriving Repr, DecidableEq

/-- The read loop's frame-completion test in `TFlex._send_command`
(driver_tflex.py lines 190-192): the accumulated bytes form a complete
packet once there are at least 2 of them, the first is STX, at least
`response[1] + 4` bytes have arrived, and the last is ETX. -/
def isCompleteResponse (response : List Nat) : Bool :=
  decide (2 ≤ response.length) && (response.headI == 0x02) &&
  decide (response.getD 1 0 + 4 ≤ response.length) &&
  (response.getLast? == some 0x03)

/-- Response validation in `TFlex._send_command` (driver_tflex.py lines
198-224): length, framing and CRC checks (CRC over `response[1:-2]` = LEN
plus full body), extraction of `response[2:-2]`, and the interception of
the ERROR and FAULT outcome codes as `TFlexHardwareError` before the body
is returned to the calling operation. -/
def validateResponse (response : List Nat) : Except DriverError (List Nat) :=
  if response.length < 5 then .error (.generic "Invalid response length")
  else if ¬(response.headI = 0x02 ∧ response.getLast? = some 0x03) then
    .error (.generic "Invalid response framing")
  else
    let data_bytes := ((response.drop 1).dropLast).dropLast
    let received_crc := (response.dropLast).getLastD 0
    if received_crc ≠ calculateCrc data_bytes then
      .error (.generic "CRC mismatch in response")
    else
      let response_data := ((response.drop 2).dropLast).dropLast
      if 0 < response_data.length then
        if response_data.headI = RESP_ERROR then
          .error (.hardware "T-Flex reported error")
        else if response_data.headI = RESP_FAULT then
          .error (.hardware "T-Flex hardware fault")
        else .ok response_data
      else .ok response_data

/-- `TFlex._mock_command` (driver_tflex.py lines 229-258): the driver's
built-in fallback simulation, acting on its local `_mock_coins` counter. -/
def mockCommand (command : Nat) (data : List Nat) (mock_coins : Int) :
    Int × List Nat :=
  if command = CMD_STATUS then
    let status_byte : Nat := if mock_coins < 50 then 0 ||| 0x01 else 0
    (mock_coins, [RESP_OK, status_byte, ((mock_coins.fdiv 256).emod 256).toNat,
      (mock_coins.emod 256).toNat])
  else if command = CMD_DISPENSE then
    if 2 ≤ data.length then
      let coins_requested : Int := (((data.getD 0 0) <<< 8) ||| data.getD 1 0 : Nat)
      if mock_coins < coins_requested then (mock_coins, [RESP_LOW_COIN])
      else (mock_coins - coins_requested, [RESP_OK])
    else (mock_coins, [RESP_ERROR])
  else if command = CMD_RESET then (1000, [RESP_OK])
  else (mock_coins, [RESP_ERROR])

/-- The body of `TFlex.status` (driver_tflex.py lines 260-300) acting on
the cached snapshot, given the result of `self._send_command(CMD_STATUS)`:
the entire exchange sits in a `try` whose `except Exception` handler sets
the cached snapshot's fault flag, so an error from the send path (timeout,
transport, protocol, or the hardware errors `_send_command` raises for the
ERROR/FAULT outcomes) degrades the cache instead of propagating. -/
def statusUpdate (cached : TFlexStatus) (send : Except DriverError (List Nat)) :
    TFlexStatus :=
  match send with
  | .error _ => { cached with fault := true }
  | .ok response =>
    if 4 ≤ response.length then
      let status_code := response.headI
      let status_flags := response.getD 1 0
      let coins_high := response.getD 2 0
      let coins_low := response.getD 3 0
      if status_code = RESP_OK then
        { low_coin := status_flags &&& 0x01 ≠ 0,
          lid_open := status_flags &&& 0x02 ≠ 0,
          fault := status_flags &&& 0x04 ≠ 0,
          coins_available := (((coins_high <<< 8) ||| coins_low : Nat) : Int) }
      else { cached with fault := true }
    else cached

/-- `TFlex.status` as a call that could in principle raise: the source
method catches every exception and always reaches its final `return`
statement (driver_tflex.py lines 291-300), so the embedding produces `.ok`
on every path. -/
def statusCall (cached : TFlexStatus) (send : Except DriverError (List Nat)) :
    Except DriverError TFlexStatus :=
  .ok (statusUpdate cached send)

/-- Outcome interpretation in `TFlex.dispense` (driver_tflex.py lines
321-343), given the result of `self._send_command(CMD_DISPENSE, data)`:
a `TFlexError` from the send path is re-raised unchanged (`except
TFlexError: raise`), and the single-byte outcome is mapped to the
dispense-specific error taxonomy. -/
def dispenseOutcome (sendResult : Except DriverError (List Nat)) :
    Except DriverError Unit :=
  match sendResult with
  | .error e => .error e
  | .ok response =>
    if 0 < response.length then
      let status_code := response.headI
      if status_code = RESP_OK then .ok ()
      else if status_code = RESP_LOW_COIN then
        .error (.hardware "Insufficient coins in dispenser")
      else if status_code = RESP_BUSY then
        .error (.hardware "Dispenser is busy")
      else if status_code = RESP_LID_OPEN then
        .error (.hardware "Dispenser lid is open")
      else
        .error (.hardware ("Dispense failed with code: " ++ toString status_code))
    else .error (.generic "No response to dispense command")

/-- One DISPENSE round trip on the device-response side: the simulator
frames the single outcome byte with `_send_response`'s encoding, the
driver's `_send_command` validates and unwraps the frame, and `dispense`
maps the outcome. -/
def dispenseRoundTrip (code : Nat) : Except DriverError Unit :=
  dispenseOutcome (validateResponse (encodeResponse [code]))

/-- A Python value passed to `TFlex.dispense` as its `coins` argument:
either an `int` or a value of some other type (rejected by the
`isinstance` check). -/
inductive PyVal where
  | int (n : Int)
  | nonInt
deriving Repr, DecidableEq

/-- The input validation at the top of `TFlex.dispense` (driver_tflex.py
lines 313-314). -/
def dispenseValidate (coins : PyVal) : Except DriverError Int :=
  match coins with
  | .nonInt => .error (.valueError "Coin count must be between 1 and 255")
  | .int n =>
    if n < 1 ∨ 255 < n then
      .error (.valueError "Coin count must be between 1 and 255")
    else .ok n

/-- `TFlex.dispense` (driver_tflex.py lines 302-343) up to and including
the transport writes: validation happens before the request packet is
built, so an invalid count produces `ValueError` with an empty write list;
a valid count encodes the big-endian 2-byte count, writes exactly one
request frame, and maps the device's outcome.  The second component lists
the frames written to the transport. -/
def dispenseCall (coins : PyVal) (deviceOutcome : Nat) :
    Except DriverError Unit × List (List Nat) :=
  match dispenseValidate coins with
  | .error e => (.error e, [])
  | .ok n =>
    let data := [((n.fdiv 256).emod 256).toNat, (n.emod 256).toNat]
    (dispenseOutcome (validateResponse (encodeResponse [deviceOutcome])),
      [encodeRequest CMD_DISPENSE data])

/-! ### Decidability of `Except` equality, used to evaluate driver results
on concrete inputs. -/

instance instDecEqExcept {e a : Type} [DecidableEq e] [DecidableEq a] :
    DecidableEq (Except e a) := fun x y =>
  match x, y with
  | .error u, .error v =>
    if h : u = v then .isTrue (by rw [h])
    else .isFalse (fun hh => h (Except.error.inj hh))
  | .ok u, .ok v =>
    if h : u = v then .isTrue (by rw [h])
    else .isFalse (fun hh => h (Except.ok.inj hh))
  | .error _, .ok _ => .isFalse (fun hh => Except.noConfusion hh)
  | .ok _, .error _ => .isFalse (fun hh => Except.noConfusion hh)

/-! ### Helper lemmas -/

/-- `_send_response` is a no-op while the protocol's transport is unset. -/
theorem sendResponse_none (c : DevCtx) (r : List Nat) (h : c.transport = none) :
    sendResponse c r = c := by
  simp [sendResponse, h]

/-- `_handle_packet` never sets the transport or the pending-response
attribute, and writes nothing when the transport is unset. -/
theorem handlePacket_none (c : DevCtx) (pkt : List Nat) (h : c.transport = none) :
    (handlePacket c pkt).transport = none ∧ (handlePacket c pkt).sent = c.sent ∧
    (handlePacket c pkt).pending_response = c.pending_response := by
  unfold handlePacket
  dsimp only
  split_ifs <;> first | exact ⟨h, rfl, rfl⟩ | simp [sendResponse, h]

/-- `_process_buffer` preserves an unset transport and, while it is unset,
writes nothing and never creates a pending response. -/
theorem processBuffer_none (c : DevCtx) (buffer : List Nat) :
    c.transport = none →
    (processBuffer c buffer).1.transport = none ∧
    (processBuffer c buffer).1.sent = c.sent ∧
    (processBuffer c buffer).1.pending_response = c.pending_response := by
  induction c, buffer using processBuffer.induct with
  | case1 c buffer h5 hstx ih =>
    intro h
    rw [processBuffer]
    dsimp only
    split_ifs <;> first | exact ⟨h, rfl, rfl⟩ | exact ih h
  | case2 c buffer h5 hstx h2 =>
    intro h
    rw [not_ne_iff] at hstx
    rw [processBuffer]
    dsimp only
    split_ifs <;> first | exact ⟨h, rfl, rfl⟩ | omega
  | case3 c buffer h5 hstx h2 plen hlt =>
    intro h
    rw [not_ne_iff] at hstx
    rw [processBuffer]
    dsimp only
    split_ifs <;> first | exact ⟨h, rfl, rfl⟩ | omega
  | case4 c buffer h5 hstx h2 plen hlt ih =>
    intro h
    rw [not_ne_iff] at hstx
    rw [processBuffer]
    dsimp only
    have hp := handlePacket_none c (buffer.take plen) h
    have hrec := ih hp.1
    split_ifs <;>
      first
        | exact ⟨h, rfl, rfl⟩
        | exact ⟨hrec.1, hrec.2.1.trans hp.2.1, hrec.2.2.trans hp.2.2⟩
        | omega
  | case5 c buffer h5 =>
    intro h
    rw [processBuffer]
    dsimp only
    split_ifs <;> exact ⟨h, rfl, rfl⟩

/-- The `_handle_client` read loop keeps the transport unset, writes no
frame through it, and never finds a `_pending_response` to forward. -/
theorem handleClientLoop_quiet (chunks : List (List Nat)) :
    ∀ (c : DevCtx) (buffer : List Nat) (w : List (List Nat)),
    c.transport = none → c.pending_response = none →
    (handleClientLoop c buffer w chunks).1.transport = none ∧
    (handleClientLoop c buffer w chunks).1.sent = c.sent ∧
    (handleClientLoop c buffer w chunks).2.2 = w := by
  induction chunks with
  | nil => intro c buffer w h hp; exact ⟨h, rfl, rfl⟩
  | cons chunk rest ih =>
    intro c buffer w h hp
    have hq := processBuffer_none c (buffer ++ chunk) h
    have hpend : (processBuffer c (buffer ++ chunk)).1.pending_response = none :=
      hq.2.2.trans hp
    have hrec := ih (processBuffer c (buffer ++ chunk)).1
      (processBuffer c (buffer ++ chunk)).2 w hq.1 hpend
    unfold handleClientLoop dataReceived
    dsimp only
    rw [hpend]
    exact ⟨hrec.1, hrec.2.1.trans hq.2.1, hrec.2.2⟩

/-- The simulator's response framing is accepted and unwrapped by the
driver's validation, with the ERROR and FAULT outcomes intercepted as
hardware errors (the `_send_command` interception). -/
theorem validate_encode_single (code : Nat) :
    validateResponse (encodeResponse [code]) =
      if code = RESP_ERROR then .error (.hardware "T-Flex reported error")
      else if code = RESP_FAULT then .error (.hardware "T-Flex hardware fault")
      else .ok [code] := by
  simp [validateResponse, encodeResponse, List.headI, List.dropLast, List.getLastD]

/-! ### Claim theorems -/

/-- C1.  The claim asserts the driver's request checksum covers LEN plus the
full body so the simulator's decoder accepts every encoded request.  The
code contradicts it: at the concrete failing input STATUS with empty data,
the encoder's CRC is computed over `packet[1:-1]` before CRC and ETX are
appended — here just `[LEN]`, omitting the command byte — while the
simulator verifies the CRC over LEN plus the whole body, so it silently
drops the frame (state unchanged, no response) even with a live transport. -/
theorem request_checksum_mismatch_bug :
    encodeRequest CMD_STATUS [] = [0x02, 1, CMD_STATUS, calculateCrc [1], 0x03] ∧
    calculateCrc [1] ≠ calculateCrc [1, CMD_STATUS] ∧
    handlePacket { transport := some () } (encodeRequest CMD_STATUS []) =
      { transport := some () } ∧
    (handlePacket { transport := some () } (encodeRequest CMD_STATUS [])).sent = [] := by
  decide

/-- C2 counterexample.  The claim asserts a transport failure mid-wait makes
`status()` fail with a timeout error.  At the concrete input where
`_send_command` raises `TFlexTimeoutError`, `status()` instead returns
normally (the catch-all `except Exception` swallows it) with the cached
snapshot degraded to `fault = true`. -/
theorem status_swallows_timeout :
    (statusCall { coins_available := 960 }
      (.error (.timeoutErr "Command timeout after 5.0s"))).isOk = true ∧
    statusCall { coins_available := 960 }
      (.error (.timeoutErr "Command timeout after 5.0s")) =
      .ok { coins_available := 960, fault := true } := by
  decide

/-- C2 amended.  `status()` never raises at all: any error from the send
path (timeout, transport, protocol, or the hardware errors `_send_command`
raises for ERROR/FAULT outcomes) and any device-reported non-OK status
outcome both set the cached snapshot's fault flag to true and return the
degraded cached snapshot. -/
theorem status_never_raises (cached : TFlexStatus)
    (send : Except DriverError (List Nat)) :
    (statusCall cached send).isOk = true ∧
    (∀ e : DriverError, send = .error e →
      statusCall cached send = .ok { cached with fault := true }) ∧
    (∀ resp : List Nat, send = .ok resp → 4 ≤ resp.length → resp.headI ≠ RESP_OK →
      statusCall cached send = .ok { cached with fault := true }) := by
  refine ⟨rfl, ?_, ?_⟩
  · intro e he
    subst he
    rfl
  · intro resp hr h4 hno
    subst hr
    simp [statusCall, statusUpdate, h4, hno]

/-- C2 witness. -/
theorem status_never_raises_witness :
    statusCall {} (.error (.timeoutErr "Command timeout after 5.0s")) =
      .ok { ({} : TFlexStatus) with fault := true } :=
  (status_never_raises {} (.error (.timeoutErr "Command timeout after 5.0s"))).2.1
    (.timeoutErr "Command timeout after 5.0s") rfl

/-- C3 counterexample.  The claim asserts the simulator's RESET handler
restores `coinsAvailable` to the configured full level (1000).  At the
concrete state with 7 coins left, `_handle_reset` leaves the inventory at
7. -/
theorem reset_keeps_inventory :
    (handleReset { coins_available := 7, fault := true, busy := true, lid_open := true, jam_simulation := true }).1.coins_available = 7 ∧
    (handleReset { coins_available := 7, fault := true, busy := true, lid_open := true, jam_simulation := true }).1.coins_available ≠ 1000 := by
  decide

/-- C3 amended.  For every simulator device state, handling RESET clears
`fault`, `busy`, `lidOpen` and `jamSimulationEnabled` and answers OK, but
leaves `coinsAvailable` (and `totalDispensed`) unchanged; only the driver's
built-in mock mode resets its own coin counter to 1000 on RESET. -/
theorem reset_clears_flags_only (s : MockTFlexState) :
    handleReset s = ({ s with fault := false, busy := false, lid_open := false, jam_simulation := false }, [RESP_OK]) ∧
    (handleReset s).1.coins_available = s.coins_available ∧
    (handleReset s).1.total_dispensed = s.total_dispensed ∧
    (∀ mock_coins : Int, mockCommand CMD_RESET [] mock_coins = (1000, [RESP_OK])) :=
  ⟨rfl, rfl, rfl, fun _ => rfl⟩

/-- C3 witness. -/
theorem reset_clears_flags_only_witness :
    handleReset { fault := true } = ({}, [RESP_OK]) :=
  (reset_clears_flags_only { fault := true }).1.trans (by decide)

/-- C4.  Every client session served by `MockTFlexServer._handle_client`
uses a protocol object whose `connection_made` is never invoked, so its
transport stays `None`, `_send_response` returns before writing, and the
`_pending_response` attribute probed by the loop never exists: the server
transmits no bytes to any client, for any input chunks — yet a valid
request frame (here a RESET against a faulted device) still mutates the
shared device state. -/
theorem handleClient_transmits_nothing :
    (∀ (st : MockTFlexState) (chunks : List (List Nat)),
      (handleClient st chunks).1.transport = none ∧
      (handleClient st chunks).1.sent = [] ∧
      (handleClient st chunks).2.2 = []) ∧
    (handleClient { fault := true }
      [[0x02, 1, CMD_RESET, calculateCrc [1, CMD_RESET], 0x03]]).1.state.fault
      = false := by
  constructor
  · intro st chunks
    have hq := handleClientLoop_quiet chunks
      { transport := none, state := st, sent := [], tasks := [],
        pending_response := none } [] [] rfl rfl
    exact ⟨hq.1, hq.2.1, hq.2.2⟩
  · have hcrc : calculateCrc [1, CMD_RESET] = 28 := by decide
    have hcrc2 : calculateCrc [1, 3] = 28 := by decide
    rw [hcrc]
    unfold handleClient
    simp [handleClientLoop, dataReceived, processBuffer, handlePacket,
      processCommand, handleReset, sendResponse, hcrc2, CMD_RESET, CMD_STATUS,
      CMD_DISPENSE, CMD_CALIBRATE, RESP_OK]

/-- C4 witness. -/
theorem handleClient_transmits_nothing_witness :
    (handleClient {} [[0x02]]).1.sent = [] ∧ (handleClient {} [[0x02]]).2.2 = [] :=
  ⟨(handleClient_transmits_nothing.1 {} [[0x02]]).2.1,
   (handleClient_transmits_nothing.1 {} [[0x02]]).2.2⟩

/-- C5 counterexample.  The claim asserts every request for more coins than
available is answered LOW_COIN.  At the concrete faulted state with 5 coins
and a request for 10, the fault check precedes the inventory check and the
answer is FAULT, not LOW_COIN. -/
theorem dispense_low_coin_shadowed :
    (handleDispense { fault := true, coins_available := 5 } [0, 10]).2.1
      = [RESP_FAULT] ∧
    [RESP_FAULT] ≠ [RESP_LOW_COIN] ∧
    ({ fault := true, coins_available := 5 } : MockTFlexState).coins_available
      < 10 := by
  decide

/-- C5 amended.  With no fault, lid or busy condition holding: an accepted
dispense of n coins leaves the state untouched synchronously, schedules
exactly one background completion, and that completion reduces
`coinsAvailable` by exactly n, increases `totalDispensed` by exactly n and
clears busy; a request for n > `coinsAvailable` is answered LOW_COIN
synchronously with no state mutation and no task.  (When fault, lid-open or
busy also holds, the corresponding rejection takes precedence over
LOW_COIN, as the counterexample shows — still with no mutation.) -/
theorem dispense_inventory_conservation (s : MockTFlexState) (d0 d1 : Nat)
    (n : Int) (hn : n = (((d0 <<< 8) ||| d1 : Nat) : Int))
    (hf : s.fault = false) (hl : s.lid_open = false) (hb : s.busy = false) :
    (n ≤ s.coins_available →
      (handleDispense s [d0, d1]).2.1 = [RESP_OK] →
      handleDispense s [d0, d1] = (s, [RESP_OK], [SimTask.dispense n]) ∧
      (simulateDispense s n).coins_available = s.coins_available - n ∧
      (simulateDispense s n).total_dispensed = s.total_dispensed + n ∧
      (simulateDispense s n).busy = false) ∧
    (s.coins_available < n →
      handleDispense s [d0, d1] = (s, [RESP_LOW_COIN], [])) := by
  subst hn
  constructor
  · intro hle hok
    by_cases hjs : s.jam_simulation = true
    · by_cases hj10 : 10 < (d0 <<< 8) ||| d1
      · exfalso
        simp [handleDispense, hf, hl, hb, hjs, hj10, not_lt.mpr hle, RESP_FAULT,
          RESP_OK] at hok
      · have hd : handleDispense s [d0, d1] =
            (s, [RESP_OK], [SimTask.dispense (((d0 <<< 8) ||| d1 : Nat) : Int)]) := by
          simp [handleDispense, hf, hl, hb, hjs, hj10, not_lt.mpr hle]
        exact ⟨hd, rfl, rfl, rfl⟩
    · have hd : handleDispense s [d0, d1] =
          (s, [RESP_OK], [SimTask.dispense (((d0 <<< 8) ||| d1 : Nat) : Int)]) := by
        simp [handleDispense, hf, hl, hb, hjs, not_lt.mpr hle]
      exact ⟨hd, rfl, rfl, rfl⟩
  · intro hgt
    simp [handleDispense, hf, hl, hb, hgt]

/-- C5 witness. -/
theorem dispense_inventory_conservation_witness :
    handleDispense {} [0, 40] =
      ({}, [RESP_OK], [SimTask.dispense 40]) ∧
    (simulateDispense {} 40).coins_available =
      ({} : MockTFlexState).coins_available - 40 ∧
    (simulateDispense {} 40).total_dispensed =
      ({} : MockTFlexState).total_dispensed + 40 :=
  let h := (dispense_inventory_conservation {} 0 40 40 (by decide) rfl rfl rfl).1
    (by decide) (by decide)
  ⟨h.1, h.2.1, h.2.2.1⟩

/-- C6 counterexample.  The claim asserts every jam-enabled state answers a
dispense of 11 or more with FAULT and transitions to fault.  At the
concrete jam-enabled state with the lid open, the lid check precedes the
jam check: the answer is LID_OPEN and fault stays false. -/
theorem jam_shadowed_by_lid :
    handleDispense { jam_simulation := true, lid_open := true } [0, 11] =
      ({ jam_simulation := true, lid_open := true }, [RESP_LID_OPEN], []) ∧
    (handleDispense { jam_simulation := true, lid_open := true } [0, 11]).1.fault
      = false ∧
    [RESP_LID_OPEN] ≠ [RESP_FAULT] := by
  decide

/-- C6 amended.  With jam simulation enabled, no fault/lid/busy condition
holding, and the requested count within the available inventory, a DISPENSE
request for more than 10 coins sets fault, is answered FAULT synchronously,
schedules no completion, and leaves `coinsAvailable` unchanged.  (When a
fault/lid/busy/low-coin rejection applies first, it takes precedence and
fault is not set by the jam path, as the counterexample shows.) -/
theorem jam_triggers_fault (s : MockTFlexState) (d0 d1 : Nat) (n : Int)
    (hn : n = (((d0 <<< 8) ||| d1 : Nat) : Int))
    (hj : s.jam_simulation = true) (hf : s.fault = false)
    (hl : s.lid_open = false) (hb : s.busy = false)
    (hle : n ≤ s.coins_available) (h10 : 10 < n) :
    handleDispense s [d0, d1] = ({ s with fault := true }, [RESP_FAULT], []) ∧
    (handleDispense s [d0, d1]).1.coins_available = s.coins_available := by
  subst hn
  have hmain : handleDispense s [d0, d1] =
      ({ s with fault := true }, [RESP_FAULT], []) := by
    simp [handleDispense, hj, hf, hl, hb]
    split_ifs with h1 h2 <;> first | rfl | omega
  exact ⟨hmain, by rw [hmain]⟩

/-- C6 witness. -/
theorem jam_triggers_fault_witness :
    handleDispense { jam_simulation := true } [0, 11] =
      ({ jam_simulation := true, fault := true }, [RESP_FAULT], []) :=
  ((jam_triggers_fault { jam_simulation := true } 0 11 11 (by decide) rfl rfl
    rfl rfl (by decide) (by decide)).1).trans (by decide)

/-- C7 counterexample.  The claim asserts a LEN = 0 frame with a correct
checksum is accepted by both decoders.  At the concrete frame
`[STX, 0, CRC, ETX]` whose CRC is correct over LEN plus the (empty) body:
the driver's `_send_command` reader deems it complete but then rejects it
("Invalid response length" — the minimum accepted frame is 5 bytes), and
the simulator's `_handle_packet` drops it as an invalid-length packet,
mutating nothing and sending nothing even with a live transport. -/
theorem len_zero_frame_rejected :
    isCompleteResponse [0x02, 0, calculateCrc [0], 0x03] = true ∧
    validateResponse [0x02, 0, calculateCrc [0], 0x03] =
      .error (.generic "Invalid response length") ∧
    handlePacket { transport := some () } [0x02, 0, calculateCrc [0], 0x03] =
      { transport := some () } := by
  decide

/-- C7 amended.  A LEN = 0 frame is never accepted, whatever its checksum
byte: the simulator's buffer loop does not even examine a lone 4-byte frame
(its minimum is 5 buffered bytes, so the frame sits in the buffer as
incomplete), `_handle_packet` drops an extracted 4-byte packet as invalid
length, and the driver's `_send_command` raises an invalid-response-length
error on it after its read loop deems it complete; the minimum legal LEN
on both sides is 1. -/
theorem len_zero_frame_rejected_both_sides (crc : Nat) (ctx : DevCtx) :
    handlePacket ctx [0x02, 0, crc, 0x03] = ctx ∧
    processBuffer ctx [0x02, 0, crc, 0x03] = (ctx, [0x02, 0, crc, 0x03]) ∧
    validateResponse [0x02, 0, crc, 0x03] =
      .error (.generic "Invalid response length") ∧
    isCompleteResponse [0x02, 0, crc, 0x03] = true := by
  refine ⟨?_, ?_, ?_, ?_⟩
  · simp [handlePacket]
  · rw [processBuffer]
    simp
  · simp [validateResponse]
  · simp [isCompleteResponse, List.headI, List.getLast?]

/-- C7 witness. -/
theorem len_zero_frame_rejected_both_sides_witness :
    handlePacket {} [0x02, 0, 0, 0x03] = {} ∧
    validateResponse [0x02, 0, 0, 0x03] =
      .error (.generic "Invalid response length") :=
  ⟨(len_zero_frame_rejected_both_sides 0 {}).1,
   (len_zero_frame_rejected_both_sides 0 {}).2.2.1⟩

/-- C8 counterexample.  The claim asserts every busy state answers DISPENSE
with BUSY.  At the concrete state that is both busy and faulted, the fault
check precedes the busy check and the answer is FAULT. -/
theorem busy_shadowed_by_fault :
    (handleDispense { busy := true, fault := true } [0, 1]).2.1 = [RESP_FAULT] ∧
    [RESP_FAULT] ≠ [RESP_BUSY] := by
  decide

/-- C8 amended.  In every busy state, a well-formed DISPENSE request is
rejected synchronously — with FAULT if fault also holds, else LID_OPEN if
the lid is open, else BUSY — and in all cases no background completion is
scheduled and no state field is mutated. -/
theorem busy_dispense_exclusion (s : MockTFlexState) (d0 d1 : Nat)
    (hb : s.busy = true) :
    (handleDispense s [d0, d1]).1 = s ∧
    (handleDispense s [d0, d1]).2.2 = [] ∧
    (handleDispense s [d0, d1]).2.1 =
      (if s.fault then [RESP_FAULT]
       else if s.lid_open then [RESP_LID_OPEN]
       else [RESP_BUSY]) := by
  simp [handleDispense, hb]
  split_ifs <;> simp

/-- C8 witness. -/
theorem busy_dispense_exclusion_witness :
    (handleDispense { busy := true } [0, 1]).1 = { busy := true } ∧
    (handleDispense { busy := true } [0, 1]).2.2 = [] ∧
    (handleDispense { busy := true } [0, 1]).2.1 =
      (if ({ busy := true } : MockTFlexState).fault then [RESP_FAULT]
       else if ({ busy := true } : MockTFlexState).lid_open then [RESP_LID_OPEN]
       else [RESP_BUSY]) :=
  busy_dispense_exclusion { busy := true } 0 1 rfl

/-- C9 counterexample.  The claim asserts any outcome other than OK,
LOW_COIN, BUSY and LID_OPEN raises a generic hardware error carrying the
raw outcome code.  At the concrete outcome FAULT (5), `_send_command`
intercepts the code first and the raised hardware error carries the fixed
message "T-Flex hardware fault", not the code-carrying message. -/
theorem dispense_fault_code_not_carried :
    dispenseRoundTrip 5 = .error (.hardware "T-Flex hardware fault") ∧
    dispenseRoundTrip 5 ≠
      .error (.hardware ("Dispense failed with code: " ++ toString 5)) := by
  decide

/-- C9 amended.  The DISPENSE round trip maps the outcome byte as: OK
returns normally; LOW_COIN, BUSY and LID_OPEN raise the insufficient-
inventory, device-busy and lid-open hardware errors; ERROR and FAULT are
intercepted inside `_send_command` and raise hardware errors with fixed
messages not carrying the code; every remaining code raises the generic
hardware error carrying the raw outcome code. -/
theorem dispense_outcome_taxonomy (code : Nat) :
    (code = RESP_OK → dispenseRoundTrip code = .ok ()) ∧
    (code = RESP_LOW_COIN → dispenseRoundTrip code =
      .error (.hardware "Insufficient coins in dispenser")) ∧
    (code = RESP_BUSY → dispenseRoundTrip code =
      .error (.hardware "Dispenser is busy")) ∧
    (code = RESP_LID_OPEN → dispenseRoundTrip code =
      .error (.hardware "Dispenser lid is open")) ∧
    (code = RESP_ERROR → dispenseRoundTrip code =
      .error (.hardware "T-Flex reported error")) ∧
    (code = RESP_FAULT → dispenseRoundTrip code =
      .error (.hardware "T-Flex hardware fault")) ∧
    (code ≠ RESP_OK → code ≠ RESP_ERROR → code ≠ RESP_BUSY →
      code ≠ RESP_LOW_COIN → code ≠ RESP_LID_OPEN → code ≠ RESP_FAULT →
      dispenseRoundTrip code =
        .error (.hardware ("Dispense failed with code: " ++ toString code))) := by
  refine ⟨fun h => by subst h; decide, fun h => by subst h; decide,
    fun h => by subst h; decide, fun h => by subst h; decide,
    fun h => by subst h; decide, fun h => by subst h; decide,
    fun h0 h1 h2 h3 h4 h5 => ?_⟩
  simp only [RESP_OK, RESP_ERROR, RESP_BUSY, RESP_LOW_COIN, RESP_LID_OPEN,
    RESP_FAULT] at h0 h1 h2 h3 h4 h5
  unfold dispenseRoundTrip
  rw [validate_encode_single]
  simp [dispenseOutcome, RESP_OK, RESP_ERROR, RESP_BUSY, RESP_LOW_COIN,
    RESP_LID_OPEN, RESP_FAULT, List.headI, h0, h1, h2, h3, h4, h5]

/-- C9 witness. -/
theorem dispense_outcome_taxonomy_witness :
    dispenseRoundTrip 7 =
      .error (.hardware ("Dispense failed with code: " ++ toString 7)) :=
  (dispense_outcome_taxonomy 7).2.2.2.2.2.2 (by decide) (by decide) (by decide)
    (by decide) (by decide) (by decide)

/-- C10.  Every argument to `dispense` that is not an `int` in 1..255 is
rejected with `ValueError` — a class outside the `TFlexError` hierarchy of
hardware and transport errors — before any request frame is written to the
transport. -/
theorem dispense_validates_before_io (v : PyVal) (deviceOutcome : Nat)
    (h : ∀ n : Int, v = .int n → n < 1 ∨ 255 < n) :
    dispenseCall v deviceOutcome =
      (.error (.valueError "Coin count must be between 1 and 255"), []) ∧
    (DriverError.valueError "Coin count must be between 1 and 255").isTFlexError
      = false := by
  refine ⟨?_, rfl⟩
  cases v with
  | nonInt => rfl
  | int n =>
    have hrange := h n rfl
    simp [dispenseCall, dispenseValidate, hrange]

/-- C10 witness. -/
theorem dispense_validates_before_io_witness :
    dispenseCall (.int 256) 0 =
      (.error (.valueError "Coin count must be between 1 and 255"), []) :=
  (dispense_validates_before_io (.int 256) 0
    (fun n hn => by injection hn with h2; omega)).1

end RoluATM
